import Mathlib

/-!
Shallow embedding of the vsse SSE client (`src/sse-client.js`) and proofs
about its connection-lifecycle controller, listener registry, idle/heartbeat
watchdog and backoff calculator.

Modelling conventions:
* The client's mutable fields become a `ClientState` record; each method is a
  pure state transformer translated line by line from the source.
* The transport handle (`EventSourcePolyfill`) carries no inspectable data in
  the properties below, so `es : Bool` records only whether a handle exists.
  Whether `new EventSourcePolyfill(...)` succeeds or throws synchronously is an
  environment choice, passed in as a `ctorOk : Bool` parameter.
* Callbacks are opaque identifiers (`Nat`); dispatch records callback
  invocations in an output event list instead of running them (the source
  swallows every callback exception, so the state transition does not depend
  on what the callback does).
* `JSON.parse` is abstracted: a frame's text is given as `Option JVal`, with
  `none` for text on which the parser throws, and a JSON value otherwise.
* `Date.now()` is an `Int` parameter `now`; timers are modelled by the Bool
  fields that track their presence plus explicit scheduling actions returned
  by the functions that would call `setTimeout`.
-/

namespace Vsse

/-- Connection state, mirroring `connectionState` in the source
(`'disconnected'|'connecting'|'connected'|'error'`). -/
inductive ConnState
  | disconnected
  | connecting
  | connected
  | error
deriving DecidableEq, Repr

/-- A registry entry: `{ cb, createdAt }` as stored in `this.listeners`. -/
structure Listener where
  cb : Nat
  createdAt : Int
deriving DecidableEq, Repr

/-- The client's mutable state: the fields set up in the `SSEClient`
constructor, plus the option fields the modelled methods read
(`opts.url`, `opts.idleTimeout`, `opts.maxListeners`, `opts.withHeartbeat`,
`opts.expectedPingInterval`). `url = none` models an undefined url; an empty
string is also falsy in the source, see `urlMissing`. -/
structure ClientState where
  url : Option String
  idleTimeout : Nat
  maxListeners : Nat
  withHeartbeat : Bool
  expectedPingInterval : Int
  es : Bool
  listeners : List (String × Listener)
  globalListeners : List Nat
  backoffAttempts : Nat
  idleTimer : Bool
  lastActiveAt : Int
  lastMessageAt : Int
  lastHeartbeatAt : Int
  heartbeatIntervalId : Bool
  connectionState : ConnState
  connectLock : Bool
  connectAttempts : Nat
  lastConnectAttempt : Int
  minConnectInterval : Int
deriving DecidableEq, Repr

/-- JS truthiness test `!url` for the configured endpoint. -/
def urlMissing : Option String → Bool
  | none => true
  | some u => u.isEmpty

/-- JS Map lookup `this.listeners.get(k)`. -/
def mapGet (m : List (String × Listener)) (k : String) : Option Listener :=
  (m.find? fun p => p.1 == k).map (·.2)

/-- JS Map membership `this.listeners.has(k)`. -/
def mapHas (m : List (String × Listener)) (k : String) : Bool :=
  (m.find? fun p => p.1 == k).isSome

/-- JS Map insertion `this.listeners.set(k, v)` (replaces in place or appends). -/
def mapSet (m : List (String × Listener)) (k : String) (v : Listener) :
    List (String × Listener) :=
  if m.any (fun p => p.1 == k) then
    m.map fun p => if p.1 == k then (k, v) else p
  else m ++ [(k, v)]

/-- JS Map removal `this.listeners.delete(k)`. -/
def mapDelete (m : List (String × Listener)) (k : String) :
    List (String × Listener) :=
  m.filter fun p => !(p.1 == k)

/-- The state mutation of the `SSEClient` constructor: option defaults
(`idleTimeout: 30_000`, `withHeartbeat: true`, `expectedPingInterval: 15_000`,
`maxListeners: 1000`) and the initial field values, with `Date.now()` at
construction passed as `now`. -/
def initClient (now : Int) (url : Option String) : ClientState where
  url := url
  idleTimeout := 30000
  maxListeners := 1000
  withHeartbeat := true
  expectedPingInterval := 15000
  es := false
  listeners := []
  globalListeners := []
  backoffAttempts := 0
  idleTimer := false
  lastActiveAt := now
  lastMessageAt := 0
  lastHeartbeatAt := 0
  heartbeatIntervalId := false
  connectionState := ConnState.disconnected
  connectLock := false
  connectAttempts := 0
  lastConnectAttempt := 0
  minConnectInterval := 500

/-- Result of an open-attempt entry point: the post-call state, how many times
`new EventSourcePolyfill` was invoked (`ctorCalls`), whether a handle was
successfully constructed in this call (`constructed`), and whether
`scheduleReconnect` was invoked (`schedReconnect`). -/
structure FCResult where
  state : ClientState
  ctorCalls : Nat
  constructed : Bool
  schedReconnect : Bool
deriving DecidableEq, Repr

/-- The state effect of `scheduleReconnect()`: `this.backoffState.attempts++`
(the delay computation itself is the pure `backoffDelay` below; the timer
callback is the `schedReconnect` flag of `FCResult`). -/
def scheduleReconnectState (s : ClientState) : ClientState :=
  { s with backoffAttempts := s.backoffAttempts + 1 }

/-- Model of `forceConnect(reason)`: the live-handle guard, the connect-lock guard, the
url guard, then lock acquisition, transition to `connecting`, and the
`new EventSourcePolyfill` call — which either yields a handle (and installs the
periodic heartbeat interval) or throws, in which case the state becomes
`error`, the lock is released and a backoff retry is scheduled. -/
def forceConnect (ctorOk : Bool) (s : ClientState) : FCResult :=
  if s.es then ⟨s, 0, false, false⟩
  else if s.connectLock then ⟨s, 0, false, false⟩
  else if urlMissing s.url then ⟨s, 0, false, false⟩
  else
    let s1 := { s with connectLock := true, connectionState := ConnState.connecting }
    if ctorOk then
      ⟨{ s1 with es := true, heartbeatIntervalId := true }, 1, true, false⟩
    else
      let s2 := { s1 with connectionState := ConnState.error, connectLock := false }
      ⟨scheduleReconnectState s2, 1, false, true⟩

/-- Model of `maybeConnect(reason)`: guard 1 (live handle), guard 2 (`connecting` state
or lock), guard 3 (debounce against the minimum connect interval), guard 4
(lazy connection: some listener must exist), then stamping
`_lastConnectAttempt`, incrementing `_connectAttempts` and `forceConnect`. -/
def maybeConnect (now : Int) (ctorOk : Bool) (s : ClientState) : FCResult :=
  if s.es then ⟨s, 0, false, false⟩
  else if s.connectionState == ConnState.connecting || s.connectLock then
    ⟨s, 0, false, false⟩
  else if now - s.lastConnectAttempt < s.minConnectInterval then
    ⟨s, 0, false, false⟩
  else if s.listeners.length == 0 && s.globalListeners.length == 0 then
    ⟨s, 0, false, false⟩
  else
    forceConnect ctorOk
      { s with lastConnectAttempt := now, connectAttempts := s.connectAttempts + 1 }

/-- Model of `connect()`: returns `true` immediately on a live handle, `false` when no
url is configured, and otherwise delegates to `forceConnect` and returns
`true` unconditionally. -/
def connect (ctorOk : Bool) (s : ClientState) : Bool × FCResult :=
  if s.es then (true, ⟨s, 0, false, false⟩)
  else if urlMissing s.url then (false, ⟨s, 0, false, false⟩)
  else (true, forceConnect ctorOk s)

/-- Model of `close(reason)`: drops the handle, clears the heartbeat interval, clears
the idle timer, resets `connectionState` to `disconnected` and releases the
connect lock. -/
def close (s : ClientState) : ClientState :=
  { s with
    es := false
    heartbeatIntervalId := false
    idleTimer := false
    connectionState := ConnState.disconnected
    connectLock := false }

/-- Model of `destroy()`: `close('destroy')`, removal of the window activity/online
listeners (outside this state), and `this.globalListeners.clear()`.
The source never clears `this.listeners` here. -/
def destroy (s : ClientState) : ClientState :=
  { close s with globalListeners := [] }

/-- Model of `reconnect(reason)`: `close`, reset of the backoff attempts, then
`maybeConnect('reconnect')`. -/
def reconnect (now : Int) (ctorOk : Bool) (s : ClientState) : FCResult :=
  maybeConnect now ctorOk { close s with backoffAttempts := 0 }

/-- The scheduling decision taken by a `checkIdle` run: nothing, a one-shot
close after `delayMs`, or a self re-evaluation after `remainingMs`. -/
inductive IdleAction
  | doNothing
  | scheduleClose (delayMs : Int)
  | scheduleRecheck (remainingMs : Int)
deriving DecidableEq, Repr

/-- Model of `checkIdle()`: clears the pending idle timer; returns early when the idle
timeout is 0 (falsy) or no handle exists; schedules `close('idle')` after the
idle duration when no listener of any kind exists; otherwise schedules a
re-evaluation after `idle - (now - max(lastActiveAt, lastMessageAt))` when
that remainder is positive. -/
def checkIdle (now : Int) (s : ClientState) : ClientState × IdleAction :=
  let s1 := { s with idleTimer := false }
  if s1.idleTimeout == 0 then (s1, IdleAction.doNothing)
  else if !s1.es then (s1, IdleAction.doNothing)
  else if s1.listeners.length == 0 && s1.globalListeners.length == 0 then
    ({ s1 with idleTimer := true }, IdleAction.scheduleClose s1.idleTimeout)
  else
    let lastActive := max s1.lastActiveAt s1.lastMessageAt
    let remaining := (s1.idleTimeout : Int) - (now - lastActive)
    if remaining > 0 then
      ({ s1 with idleTimer := true }, IdleAction.scheduleRecheck remaining)
    else (s1, IdleAction.doNothing)

/-- Model of `checkHeartbeat()`: no-op when heartbeat monitoring is off or no handle
exists; otherwise `reconnect('heartbeat timeout')` when
`min(now - lastHeartbeatAt, now - lastMessageAt)` exceeds twice the expected
ping interval. -/
def checkHeartbeat (now : Int) (ctorOk : Bool) (s : ClientState) : ClientState :=
  if !s.withHeartbeat || !s.es then s
  else if min (now - s.lastHeartbeatAt) (now - s.lastMessageAt)
      > 2 * s.expectedPingInterval then
    (reconnect now ctorOk s).state
  else s

/-- The `open` event handler registered in `forceConnect`: transition to
`connected`, release the lock, reset backoff attempts, stamp
`lastMessageAt`/`lastHeartbeatAt`, re-run `checkIdle`. -/
def onOpen (now : Int) (s : ClientState) : ClientState × IdleAction :=
  checkIdle now
    { s with
      connectionState := ConnState.connected
      connectLock := false
      backoffAttempts := 0
      lastMessageAt := now
      lastHeartbeatAt := now }

/-- The `error` event handler registered in `forceConnect`: transition to
`error`, release the lock, `close('sse error')`, then `scheduleReconnect`. -/
def onSseError (s : ClientState) : ClientState :=
  scheduleReconnectState
    (close { s with connectionState := ConnState.error, connectLock := false })

/-- A JSON value, as produced by `JSON.parse` on a frame's text. -/
inductive JVal
  | jnull
  | jbool (b : Bool)
  | jnum (n : Int)
  | jstr (s : String)
  | jarr (xs : List JVal)
  | jobj (fields : List (String × JVal))

/-- JS truthiness of a parsed JSON value. -/
def truthy : JVal → Bool
  | JVal.jnull => false
  | JVal.jbool b => b
  | JVal.jnum n => !(n == 0)
  | JVal.jstr s => !s.isEmpty
  | JVal.jarr _ => true
  | JVal.jobj _ => true

/-- JS `typeof parsed === 'object'` (true for objects, arrays and `null`). -/
def isObjType : JVal → Bool
  | JVal.jnull => true
  | JVal.jarr _ => true
  | JVal.jobj _ => true
  | _ => false

/-- Own enumerable fields of a value, as `{ ...data }` spreads them: an
object's fields, an array's elements under their index keys, nothing for
primitives. -/
def spreadFields : JVal → List (String × JVal)
  | JVal.jobj fs => fs
  | JVal.jarr xs => xs.enum.map fun p => (toString p.1, p.2)
  | _ => []

/-- Property access `data.k` on an object's field list. -/
def getField (fs : List (String × JVal)) (k : String) : Option JVal :=
  (fs.find? fun p => p.1 == k).map (·.2)

/-- Spread update `{ ...data, k: v }`: override `k` in place when present, append it
otherwise (JS key-enumeration order). -/
def setField (fs : List (String × JVal)) (k : String) (v : JVal) :
    List (String × JVal) :=
  if fs.any (fun p => p.1 == k) then
    fs.map fun p => if p.1 == k then (k, v) else p
  else fs ++ [(k, v)]

/-- JS `t || fb` on strings (empty string is falsy). -/
def jsOrString (t : String) (fb : String) : String :=
  if t.isEmpty then fb else t

/-- The fallback chain `data.event || ev.type || 'message'` in the frame handler: the parsed
payload's `event` field when truthy, otherwise the transport-level frame kind,
otherwise `'message'`. -/
def evtNameOf (data : List (String × JVal)) (evType : String) : JVal :=
  match getField data "event" with
  | some v => if truthy v then v else JVal.jstr (jsOrString evType "message")
  | none => JVal.jstr (jsOrString evType "message")

/-- Strict equality `evtName === 'ping'`. -/
def isPing : JVal → Bool
  | JVal.jstr s => s == "ping"
  | _ => false

/-- The test `event === 'done' || event === 'error'` on the dispatched message's
`event` field (strict string comparison). -/
def isTerminalEvent : Option JVal → Bool
  | some (JVal.jstr e) => e == "done" || e == "error"
  | _ => false

/-- One observable action of `dispatch`: invocation of a per-request callback,
removal of a registry entry, or invocation of a broadcast callback. The order
of the returned list is the order the source performs them. -/
inductive DispatchEvent
  | invoke (cb : Nat) (msg : List (String × JVal))
  | remove (requestId : String)
  | invokeBroadcast (cb : Nat) (msg : List (String × JVal))

/-- Model of `dispatch(msg)`: when `msg.requestId` is truthy and present in the
listeners map, invoke that entry's callback (exceptions swallowed) and, on a
terminal `done`/`error` event, delete the entry and re-run `checkIdle`; when
`msg.requestId` is falsy, invoke every broadcast callback in order; a truthy
requestId with no registry entry is dropped silently. Keys of the listeners
`Map` are strings, so a truthy non-string requestId never matches `has`. -/
def dispatch (now : Int) (s : ClientState) (msg : List (String × JVal)) :
    ClientState × List DispatchEvent :=
  let rid := getField msg "requestId"
  let ridTruthy := match rid with
    | some v => truthy v
    | none => false
  let hit : Option (String × Nat) := match rid with
    | some (JVal.jstr r) =>
      if truthy (JVal.jstr r) then (mapGet s.listeners r).map (fun l => (r, l.cb))
      else none
    | _ => none
  match hit with
  | some (r, cb) =>
    if isTerminalEvent (getField msg "event") then
      let s1 := { s with listeners := mapDelete s.listeners r }
      ((checkIdle now s1).1, [DispatchEvent.invoke cb msg, DispatchEvent.remove r])
    else (s, [DispatchEvent.invoke cb msg])
  | none =>
    if ridTruthy then (s, [])
    else (s, s.globalListeners.map fun cb => DispatchEvent.invokeBroadcast cb msg)

/-- The `onMessage` frame handler registered in `forceConnect`: stamp
`lastMessageAt`; inside the try, parse the frame text (`parsed = none` models
a `JSON.parse` throw, silently caught), coerce non-truthy or non-object values
to `{}`, compute the event name with its fallbacks, stamp `lastHeartbeatAt` on
a ping, and dispatch `{ ...data, event: evtName }`; finally `checkHeartbeat`. -/
def onMessage (now : Int) (ctorOk : Bool) (evType : String)
    (parsed : Option JVal) (s : ClientState) : ClientState × List DispatchEvent :=
  let s1 := { s with lastMessageAt := now }
  match parsed with
  | none => (checkHeartbeat now ctorOk s1, [])
  | some p =>
    let data := if truthy p && isObjType p then spreadFields p else []
    let evtName := evtNameOf data evType
    let s2 := if isPing evtName then { s1 with lastHeartbeatAt := now } else s1
    let r := dispatch now s2 (setField data "event" evtName)
    (checkHeartbeat now ctorOk r.1, r.2)

/-- The synchronous prefix of `postAndListen(postUrl, body, onEvent, options)`
up to its first `await`: the capacity guard (`listeners.size >=
(opts.maxListeners ?? 1000)` throws `Too many listeners`), registration of the
entry under `requestId`, and `maybeConnect('post')`. The outbound `fetch` that
follows suspends and is outside this prefix. -/
def postAndListenSync (now : Int) (ctorOk : Bool) (requestId : String)
    (cb : Nat) (s : ClientState) : Except String String × ClientState × Nat :=
  if s.listeners.length ≥ s.maxListeners then
    (Except.error ("Too many listeners: " ++ toString s.listeners.length), s, 0)
  else
    let s1 := { s with listeners := mapSet s.listeners requestId ⟨cb, now⟩ }
    let r := maybeConnect now ctorOk s1
    (Except.ok requestId, r.state, r.ctorCalls)

/-- JS `Math.round` (round half toward positive infinity, as the idealised
real-valued rounding the source applies to the computed delay). -/
def jsRound (q : ℚ) : ℤ := ⌊q + 1 / 2⌋

/-- The `reconnectBackoff` configuration record
`{ baseMs, maxMs, factor, jitter }`, over exact rationals (the source computes
in JS numbers; this embedding idealises them as exact arithmetic). -/
structure BackoffCfg where
  baseMs : ℚ
  maxMs : ℚ
  factor : ℚ
  jitter : ℚ

/-- The exponential part `Math.min(b.maxMs, b.baseMs * Math.pow(b.factor,
attempt))` of `scheduleReconnect`. -/
def backoffExp (b : BackoffCfg) (attempt : ℕ) : ℚ :=
  min b.maxMs (b.baseMs * b.factor ^ attempt)

/-- The delay `Math.round(exp + exp * (Math.random() * b.jitter))` computed by
`scheduleReconnect`, with the random draw `r` passed explicitly. -/
def backoffDelay (b : BackoffCfg) (attempt : ℕ) (r : ℚ) : ℤ :=
  jsRound (backoffExp b attempt + backoffExp b attempt * (r * b.jitter))

/-- One call in a sequence of connection requests: the `maybeConnect`
(`ensureConnected`) entry point or the public `connect()`. -/
inductive ConnCall
  | ensure
  | manual
deriving DecidableEq, Repr

/-- Run a sequence of connection calls in one tick (one `Date.now()` value),
each paired with whether the transport constructor would succeed if reached;
returns the final state, the total number of `new EventSourcePolyfill`
invocations, and the number of successfully constructed handles. -/
def runCalls (now : Int) (calls : List (ConnCall × Bool)) (s : ClientState) :
    ClientState × Nat × Nat :=
  match calls with
  | [] => (s, 0, 0)
  | (c, ok) :: rest =>
    let r := match c with
      | ConnCall.ensure => maybeConnect now ok s
      | ConnCall.manual => (connect ok s).2
    let t := runCalls now rest r.state
    (t.1, r.ctorCalls + t.2.1, (if r.constructed then 1 else 0) + t.2.2)

/-! ### Sample states used by concrete witnesses and counterexamples -/

/-- A fresh client configured with an endpoint and one registered
correlation-id listener. -/
def clientWithListener : ClientState :=
  { initClient 0 (some "/sse") with listeners := [("r1", ⟨7, 0⟩)] }

/-- A fresh client configured with an endpoint and one broadcast listener. -/
def clientWithBroadcast : ClientState :=
  { initClient 0 (some "/sse") with globalListeners := [7] }

/-- A client with a live handle, idle timeout 50 ms and one broadcast
subscriber (the spec's idle-with-listener scenario). -/
def idleClient : ClientState :=
  { initClient 0 (some "/sse") with
    es := true, idleTimeout := 50, globalListeners := [7] }

/-- The source's default `reconnectBackoff`
`{ baseMs: 1000, maxMs: 15_000, factor: 1.8, jitter: 0.3 }`. -/
def defaultBackoff : BackoffCfg := ⟨1000, 15000, 9 / 5, 3 / 10⟩

/-! ### Helper lemmas -/

/-- The function `checkIdle` only touches the idle timer: every other field survives. -/
theorem checkIdle_state (now : Int) (s : ClientState) :
    (checkIdle now s).1 = { s with idleTimer := (checkIdle now s).1.idleTimer } := by
  unfold checkIdle
  dsimp only
  split
  · rfl
  · split
    · rfl
    · split
      · rfl
      · split <;> rfl

/-- The function `forceConnect` never touches the listener registry or the broadcast set. -/
theorem forceConnect_registry (ok : Bool) (s : ClientState) :
    (forceConnect ok s).state.listeners = s.listeners
    ∧ (forceConnect ok s).state.globalListeners = s.globalListeners := by
  unfold forceConnect
  split
  · exact ⟨rfl, rfl⟩
  · split
    · exact ⟨rfl, rfl⟩
    · split
      · exact ⟨rfl, rfl⟩
      · split <;> exact ⟨rfl, rfl⟩

/-- The function `maybeConnect` never touches the listener registry or the broadcast set. -/
theorem maybeConnect_registry (now : Int) (ok : Bool) (s : ClientState) :
    (maybeConnect now ok s).state.listeners = s.listeners
    ∧ (maybeConnect now ok s).state.globalListeners = s.globalListeners := by
  unfold maybeConnect
  split
  · exact ⟨rfl, rfl⟩
  · split
    · exact ⟨rfl, rfl⟩
    · split
      · exact ⟨rfl, rfl⟩
      · split
        · exact ⟨rfl, rfl⟩
        · exact forceConnect_registry ok _

/-- The function `checkHeartbeat` never touches the listener registry or the broadcast
set (a heartbeat-timeout `reconnect` closes and reopens the handle only). -/
theorem checkHeartbeat_registry (now : Int) (ok : Bool) (s : ClientState) :
    (checkHeartbeat now ok s).listeners = s.listeners
    ∧ (checkHeartbeat now ok s).globalListeners = s.globalListeners := by
  unfold checkHeartbeat reconnect
  dsimp only
  split
  · exact ⟨rfl, rfl⟩
  · split
    · exact maybeConnect_registry now ok _
    · exact ⟨rfl, rfl⟩

/-- After a successful handle construction the `es` field is set; otherwise it
is unchanged: `es` after `forceConnect` is `es || constructed`. -/
theorem forceConnect_es (ok : Bool) (s : ClientState) :
    (forceConnect ok s).state.es = (s.es || (forceConnect ok s).constructed) := by
  unfold forceConnect
  split
  · next h => simp [h]
  · split
    · simp
    · split
      · simp
      · split <;> simp [scheduleReconnectState]

/-- The function `maybeConnect` on a live handle is a no-op. -/
theorem maybeConnect_live (now : Int) (ok : Bool) (s : ClientState)
    (h : s.es = true) : maybeConnect now ok s = ⟨s, 0, false, false⟩ := by
  unfold maybeConnect; simp [h]

/-- The function `connect` on a live handle constructs nothing. -/
theorem connect_live (ok : Bool) (s : ClientState) (h : s.es = true) :
    (connect ok s).2 = ⟨s, 0, false, false⟩ := by
  unfold connect; simp [h]

/-- Field `es` after `maybeConnect` is `es || constructed`. -/
theorem maybeConnect_es (now : Int) (ok : Bool) (s : ClientState) :
    (maybeConnect now ok s).state.es
      = (s.es || (maybeConnect now ok s).constructed) := by
  unfold maybeConnect
  split
  · next h => simp [h]
  · split
    · simp
    · split
      · simp
      · split
        · simp
        · exact forceConnect_es ok _

/-- Field `es` after `connect` is `es || constructed`. -/
theorem connect_es (ok : Bool) (s : ClientState) :
    (connect ok s).2.state.es = (s.es || (connect ok s).2.constructed) := by
  unfold connect
  split
  · next h => simp [h]
  · split
    · simp
    · exact forceConnect_es ok s

/-- Once a handle exists, a whole sequence of connection calls is inert. -/
theorem runCalls_live (now : Int) (calls : List (ConnCall × Bool))
    (s : ClientState) (h : s.es = true) : runCalls now calls s = (s, 0, 0) := by
  induction calls with
  | nil => rfl
  | cons c rest ih =>
    obtain ⟨c, ok⟩ := c
    cases c <;>
      simp [runCalls, maybeConnect_live now ok s h, connect_live ok s h, ih]

/-- The `open` handler always leaves the connect lock released. -/
theorem onOpen_lock (now : Int) (s : ClientState) :
    (onOpen now s).1.connectLock = false := by
  unfold onOpen
  rw [checkIdle_state]

/-- The `error` handler always leaves the connect lock released. -/
theorem onSseError_lock (s : ClientState) :
    (onSseError s).connectLock = false := rfl

/-! ### Claim theorems -/

/-- C1 counterexample. The claim says the connect lock "never remains true
across an asynchronous boundary, i.e. after `forceConnect` returns
synchronously the lock is false again". On a fresh client with a configured
url and a transport constructor that succeeds, `forceConnect` returns with the
handle constructed and `_connectLock` still `true` — the lock is only released
later, by the asynchronous `open` or `error` handler (or `close`). -/
theorem forceConnect_lock_counterexample :
    (initClient 0 (some "/sse")).connectLock = false
    ∧ (forceConnect true (initClient 0 (some "/sse"))).constructed = true
    ∧ (forceConnect true (initClient 0 (some "/sse"))).state.connectLock = true := by
  decide

/-- C1 amended. After `forceConnect` returns, the connect lock is held exactly
when it was already held on entry or this call successfully constructed a
handle: a guard short-circuit and a synchronous construction failure leave the
lock released, but a successful construction leaves it held until the
transport's `open` or `error` handler, or `close`, releases it. -/
theorem forceConnect_lock_amended (ok : Bool) (now : Int) (s : ClientState) :
    ((forceConnect ok s).state.connectLock
        = (s.connectLock || (forceConnect ok s).constructed))
    ∧ (onOpen now (forceConnect ok s).state).1.connectLock = false
    ∧ (onSseError (forceConnect ok s).state).connectLock = false
    ∧ (close (forceConnect ok s).state).connectLock = false := by
  refine ⟨?_, onOpen_lock now _, onSseError_lock _, rfl⟩
  unfold forceConnect
  repeat' split
  all_goals simp_all [scheduleReconnectState]

/-- C2, evaluated as a code bug. The universal half of the claim holds: over
any one-tick sequence of `maybeConnect`/`connect` calls, at most one transport
handle is ever constructed. The attempt-counter half fails on the code: a
sequence whose first successful open goes through the public `connect()`
constructs its one handle while leaving `_connectAttempts = 0`, because
`connect()` calls `forceConnect` directly and only `maybeConnect` increments
the counter — the repository's own verification script and example output
expect `connectAttempts: 1` after the first `connect()`. -/
theorem runCalls_single_handle :
    (∀ (now : Int) (calls : List (ConnCall × Bool)) (s : ClientState),
        (runCalls now calls s).2.2 ≤ 1)
    ∧ (runCalls 600
          [(ConnCall.manual, true), (ConnCall.ensure, true), (ConnCall.manual, true)]
          (initClient 600 (some "/api/sse"))).2.2 = 1
    ∧ (runCalls 600
          [(ConnCall.manual, true), (ConnCall.ensure, true), (ConnCall.manual, true)]
          (initClient 600 (some "/api/sse"))).1.connectAttempts = 0 := by
  refine ⟨?_, by decide, by decide⟩
  intro now calls s
  induction calls generalizing s with
  | nil => simp [runCalls]
  | cons c rest ih =>
    obtain ⟨c, ok⟩ := c
    cases c
    case ensure =>
      cases hc : (maybeConnect now ok s).constructed
      · simpa [runCalls, hc] using ih (maybeConnect now ok s).state
      · have hes : (maybeConnect now ok s).state.es = true := by
          rw [maybeConnect_es]; simp [hc]
        simp [runCalls, hc, runCalls_live now rest _ hes]
    case manual =>
      cases hc : (connect ok s).2.constructed
      · simpa [runCalls, hc] using ih (connect ok s).2.state
      · have hes : (connect ok s).2.state.es = true := by
          rw [connect_es]; simp [hc]
        simp [runCalls, hc, runCalls_live now rest _ hes]

/-- C3 counterexample. On a fresh client with a configured url, no registered
interest, and guards 1–3 not firing, the claim says `maybeConnect` proceeds
(records the attempt timestamp and increments the counter, since an endpoint
is configured); the code instead no-ops: the lazy-connection guard fires on
"no interest" alone and never consults the url. -/
theorem maybeConnect_lazy_counterexample :
    urlMissing (initClient 0 (some "/sse")).url = false
    ∧ (initClient 0 (some "/sse")).listeners = []
    ∧ (initClient 0 (some "/sse")).globalListeners = []
    ∧ (initClient 0 (some "/sse")).es = false
    ∧ (initClient 0 (some "/sse")).connectionState ≠ ConnState.connecting
    ∧ (initClient 0 (some "/sse")).connectLock = false
    ∧ (initClient 0 (some "/sse")).minConnectInterval
        ≤ 1000 - (initClient 0 (some "/sse")).lastConnectAttempt
    ∧ maybeConnect 1000 true (initClient 0 (some "/sse"))
        = ⟨initClient 0 (some "/sse"), 0, false, false⟩ := by
  decide

/-- C3 amended. When guards 1–3 do not fire, `maybeConnect` no-ops exactly
when there is no registered interest at all (correlation-id registry and
broadcast set both empty), regardless of whether a url is configured; in
every other case it records the attempt timestamp, increments the attempt
counter, and proceeds to open via `forceConnect`. -/
theorem maybeConnect_lazy_amended (now : Int) (ok : Bool) (s : ClientState)
    (h1 : s.es = false)
    (h2a : s.connectionState ≠ ConnState.connecting)
    (h2b : s.connectLock = false)
    (h3 : s.minConnectInterval ≤ now - s.lastConnectAttempt) :
    (s.listeners = [] ∧ s.globalListeners = [] →
        maybeConnect now ok s = ⟨s, 0, false, false⟩)
    ∧ (¬(s.listeners = [] ∧ s.globalListeners = []) →
        maybeConnect now ok s
          = forceConnect ok
              { s with lastConnectAttempt := now,
                       connectAttempts := s.connectAttempts + 1 }) := by
  unfold maybeConnect
  rw [if_neg (by simp [h1]), if_neg (by simp [beq_iff_eq, h2a, h2b]),
    if_neg (not_lt.mpr h3)]
  constructor
  · rintro ⟨hl, hg⟩
    rw [if_pos (by simp [hl, hg])]
  · intro hne
    rw [if_neg ?_]
    simp only [Bool.and_eq_true, beq_iff_eq, List.length_eq_zero, not_and]
    intro hl hg
    exact hne ⟨hl, hg⟩

/-- C3 witness: a client with one registered listener and guards 1–3 clear
proceeds to open with the timestamp recorded and the counter incremented. -/
theorem maybeConnect_lazy_amended_witness :
    maybeConnect 1000 true clientWithListener
      = forceConnect true
          { clientWithListener with
            lastConnectAttempt := 1000,
            connectAttempts := clientWithListener.connectAttempts + 1 } :=
  (maybeConnect_lazy_amended 1000 true clientWithListener (by decide) (by decide)
      (by decide) (by decide)).2 (by decide)

/-- C4 counterexample. The claim says `destroy()` leaves both the listeners
map and the broadcast set empty; on a client holding one correlation-id entry
and one broadcast callback, `destroy` clears the broadcast set but leaves the
correlation-id entry in the listeners map. -/
theorem destroy_registry_counterexample :
    (destroy { initClient 0 (some "/sse") with
        listeners := [("r1", ⟨7, 0⟩)], globalListeners := [4] }).globalListeners = []
    ∧ (destroy { initClient 0 (some "/sse") with
        listeners := [("r1", ⟨7, 0⟩)], globalListeners := [4] }).listeners
        = [("r1", ⟨7, 0⟩)]
    ∧ (destroy { initClient 0 (some "/sse") with
        listeners := [("r1", ⟨7, 0⟩)], globalListeners := [4] }).listeners ≠ [] := by
  decide

/-- C4 amended. `destroy()` empties the broadcast listener set and closes the
handle and timers, but leaves the correlation-id listeners map exactly as it
was: entries registered at teardown time remain in the map. -/
theorem destroy_registry_amended (s : ClientState) :
    (destroy s).globalListeners = []
    ∧ (destroy s).listeners = s.listeners
    ∧ (destroy s).es = false
    ∧ (destroy s).heartbeatIntervalId = false
    ∧ (destroy s).idleTimer = false
    ∧ (destroy s).connectionState = ConnState.disconnected
    ∧ (destroy s).connectLock = false := by
  simp [destroy, close]

/-- C7 confirmed. Registering via the task-submission path when the registry
size is at or above `maxListeners` throws the capacity error synchronously,
leaves the whole client state unchanged (in particular the registry), and
performs no connection side effect (no constructor call). -/
theorem postAndListenSync_capacity (now : Int) (ok : Bool) (rid : String)
    (cb : Nat) (s : ClientState) (h : s.maxListeners ≤ s.listeners.length) :
    postAndListenSync now ok rid cb s
      = (Except.error ("Too many listeners: " ++ toString s.listeners.length),
         s, 0) := by
  unfold postAndListenSync
  rw [if_pos h]

/-- C7 witness: a client whose registry is at its configured maximum rejects a
new registration and is left untouched. -/
theorem postAndListenSync_capacity_witness :
    postAndListenSync 0 true "r2" 9
        { clientWithListener with maxListeners := 1 }
      = (Except.error ("Too many listeners: " ++ toString
            ({ clientWithListener with maxListeners := 1 } : ClientState).listeners.length),
         { clientWithListener with maxListeners := 1 }, 0) :=
  postAndListenSync_capacity 0 true "r2" 9
    { clientWithListener with maxListeners := 1 } (by decide)

/-- C10 confirmed. With a url configured, no live handle and the lock free, a
`connect()` whose transport constructor throws synchronously still returns
`true`: the client is left with no handle, in the `error` state, with a
backoff retry scheduled (attempt counter bumped), and the caller receives no
failure indication. -/
theorem connect_ctor_failure (s : ClientState)
    (h1 : s.es = false) (h2 : urlMissing s.url = false)
    (h3 : s.connectLock = false) :
    (connect false s).1 = true
    ∧ (connect false s).2.state.es = false
    ∧ (connect false s).2.state.connectionState = ConnState.error
    ∧ (connect false s).2.schedReconnect = true
    ∧ (connect false s).2.state.backoffAttempts = s.backoffAttempts + 1 := by
  unfold connect forceConnect
  simp [h1, h2, h3, scheduleReconnectState]

/-- C10 witness: on a fresh client with a url, a failing constructor still
yields `true` from `connect()`, an error state and a scheduled retry. -/
theorem connect_ctor_failure_witness :
    (connect false (initClient 0 (some "/sse"))).1 = true
    ∧ (connect false (initClient 0 (some "/sse"))).2.state.es = false
    ∧ (connect false (initClient 0 (some "/sse"))).2.state.connectionState
        = ConnState.error
    ∧ (connect false (initClient 0 (some "/sse"))).2.schedReconnect = true
    ∧ (connect false (initClient 0 (some "/sse"))).2.state.backoffAttempts
        = (initClient 0 (some "/sse")).backoffAttempts + 1 :=
  connect_ctor_failure (initClient 0 (some "/sse")) (by decide) (by decide)
    (by decide)

/-- Characterization of the scheduling decision of `checkIdle` in terms of
the state's fields. -/
theorem checkIdle_action (now : Int) (s : ClientState) :
    (checkIdle now s).2 =
      if s.idleTimeout = 0 then IdleAction.doNothing
      else if s.es = false then IdleAction.doNothing
      else if s.listeners = [] ∧ s.globalListeners = [] then
        IdleAction.scheduleClose (s.idleTimeout : Int)
      else if 0 < (s.idleTimeout : Int) - (now - max s.lastActiveAt s.lastMessageAt)
      then IdleAction.scheduleRecheck
        ((s.idleTimeout : Int) - (now - max s.lastActiveAt s.lastMessageAt))
      else IdleAction.doNothing := by
  unfold checkIdle
  by_cases h0 : s.idleTimeout = 0
  · simp [h0]
  · by_cases hes : s.es
    · by_cases hl : s.listeners = []
      · by_cases hg : s.globalListeners = []
        · simp [h0, hes, hl, hg]
        · simp [h0, hes, hl, hg, List.length_eq_zero]
          split <;> rfl
      · simp [h0, hes, hl, List.length_eq_zero]
        split <;> rfl
    · simp [h0, hes]

/-- C8 confirmed. While a handle exists and any interest exists (a registered
correlation id or a broadcast subscriber), `checkIdle` never schedules or
performs a close: it either does nothing or schedules a re-evaluation, and a
re-evaluation is only scheduled when the remaining idle time is positive. A
close after the idle duration is scheduled only when both interest sets are
empty (and a handle exists and the idle timeout is enabled). `checkIdle`
itself never drops the handle. -/
theorem checkIdle_never_closes_with_interest (now : Int) (s : ClientState) :
    ((s.listeners ≠ [] ∨ s.globalListeners ≠ []) →
       (∀ d, (checkIdle now s).2 ≠ IdleAction.scheduleClose d)
       ∧ ((checkIdle now s).2 = IdleAction.doNothing
          ∨ ∃ rem, 0 < rem ∧ (checkIdle now s).2 = IdleAction.scheduleRecheck rem))
    ∧ (∀ d, (checkIdle now s).2 = IdleAction.scheduleClose d →
         s.listeners = [] ∧ s.globalListeners = [] ∧ s.es = true
         ∧ d = (s.idleTimeout : Int))
    ∧ (checkIdle now s).1.es = s.es := by
  refine ⟨?_, ?_, ?_⟩
  · intro hint
    have hne : ¬(s.listeners = [] ∧ s.globalListeners = []) := by
      rintro ⟨hl, hg⟩
      rcases hint with h | h
      · exact h hl
      · exact h hg
    rw [checkIdle_action]
    by_cases h0 : s.idleTimeout = 0
    · simp [h0]
    · by_cases hes : s.es = false
      · simp [h0, hes]
      · by_cases hr : 0 < (s.idleTimeout : Int)
            - (now - max s.lastActiveAt s.lastMessageAt)
        · refine ⟨?_, Or.inr ⟨_, hr, ?_⟩⟩ <;> simp [h0, hes, hne, hr]
        · simp [h0, hes, hne, hr]
  · intro d hd
    rw [checkIdle_action] at hd
    by_cases h0 : s.idleTimeout = 0
    · simp [h0] at hd
    · by_cases hes : s.es = false
      · simp [h0, hes] at hd
      · by_cases hint : s.listeners = [] ∧ s.globalListeners = []
        · simp only [h0, hes, hint, if_neg, if_pos, if_false, if_true] at hd
          have : d = (s.idleTimeout : Int) := by
            cases hd; rfl
          exact ⟨hint.1, hint.2, by simpa using hes, this⟩
        · by_cases hr : 0 < (s.idleTimeout : Int)
              - (now - max s.lastActiveAt s.lastMessageAt)
          · simp [h0, hes, hint, hr] at hd
          · simp [h0, hes, hint, hr] at hd
  · rw [checkIdle_state]

/-- C8 witness: a live client with idle timeout 50 and one broadcast
subscriber, evaluated 80 ms after its last activity, does not schedule a
close. -/
theorem checkIdle_never_closes_with_interest_witness :
    (checkIdle 80 idleClient).2 ≠ IdleAction.scheduleClose 50 :=
  ((checkIdle_never_closes_with_interest 80 idleClient).1 (by decide)).1 50

/-- Deleting a key removes every entry under it. -/
theorem mapDelete_find (m : List (String × Listener)) (r : String) :
    (mapDelete m r).find? (fun p => p.1 == r) = none := by
  unfold mapDelete
  induction m with
  | nil => rfl
  | cons p t ih =>
    by_cases h : p.1 == r <;> simp [List.filter_cons, h, List.find?_cons, ih]

/-- A deleted key no longer resolves in the map. -/
theorem mapGet_mapDelete (m : List (String × Listener)) (r : String) :
    mapGet (mapDelete m r) r = none := by
  simp [mapGet, mapDelete_find]

/-- Running `checkHeartbeat` right after stamping `lastFrameAt` to the current time is
a no-op (the heartbeat distance is at most zero), provided the configured
expected ping interval is non-negative. -/
theorem checkHeartbeat_now (now : Int) (ok : Bool) (t : ClientState)
    (hmsg : t.lastMessageAt = now) (hepi : 0 ≤ t.expectedPingInterval) :
    checkHeartbeat now ok t = t := by
  unfold checkHeartbeat
  split
  · rfl
  · have hle : min (now - t.lastHeartbeatAt) (now - t.lastMessageAt)
        ≤ 2 * t.expectedPingInterval := by
      have h0 : now - t.lastMessageAt = 0 := by rw [hmsg]; ring
      calc min (now - t.lastHeartbeatAt) (now - t.lastMessageAt)
          ≤ now - t.lastMessageAt := min_le_right _ _
        _ ≤ 2 * t.expectedPingInterval := by rw [h0]; linarith
    rw [if_neg (not_lt.mpr hle)]

/-- C6 confirmed. Dispatching a frame whose truthy correlation id resolves in
the registry with a terminal (`done`/`error`) event kind produces exactly the
event sequence "invoke that one callback, then remove the entry" (removal
strictly after the callback returns or throws — exceptions are swallowed),
leaving the registry without the entry; re-dispatching the same frame against
the resulting state invokes no callback and changes no state. -/
theorem dispatch_terminal_once (now now2 : Int) (s : ClientState) (r : String)
    (l : Listener) (msg : List (String × JVal))
    (hget : mapGet s.listeners r = some l)
    (hrid : getField msg "requestId" = some (JVal.jstr r))
    (hr : r.isEmpty = false)
    (hterm : isTerminalEvent (getField msg "event") = true) :
    dispatch now s msg
      = ((checkIdle now { s with listeners := mapDelete s.listeners r }).1,
         [DispatchEvent.invoke l.cb msg, DispatchEvent.remove r])
    ∧ (checkIdle now { s with
          listeners := mapDelete s.listeners r }).1.listeners
        = mapDelete s.listeners r
    ∧ dispatch now2
        (checkIdle now { s with listeners := mapDelete s.listeners r }).1 msg
        = ((checkIdle now { s with listeners := mapDelete s.listeners r }).1,
           []) := by
  have hlist : (checkIdle now { s with
      listeners := mapDelete s.listeners r }).1.listeners
      = mapDelete s.listeners r := by
    rw [checkIdle_state]
  refine ⟨?_, hlist, ?_⟩
  · simp only [dispatch, hrid, truthy, hget, hr, Bool.not_false, if_true,
      Option.map_some]
    rw [hterm]
    rfl
  · simp only [dispatch, hrid, truthy, hr, Bool.not_false, if_true, hlist,
      mapGet_mapDelete, Option.map_none]
    rfl

/-- The terminal frame used by the C6 witness. -/
def termMsg : List (String × JVal) :=
  [("requestId", JVal.jstr "r1"), ("event", JVal.jstr "done")]

/-- C6 witness: a concrete `done` frame for the registered id "r1" invokes
callback 7 once, removes the entry, and a replayed frame is dropped. -/
theorem dispatch_terminal_once_witness :
    dispatch 0 clientWithListener termMsg
      = ((checkIdle 0 { clientWithListener with
            listeners := mapDelete clientWithListener.listeners "r1" }).1,
         [DispatchEvent.invoke 7 termMsg, DispatchEvent.remove "r1"])
    ∧ (checkIdle 0 { clientWithListener with
          listeners := mapDelete clientWithListener.listeners "r1" }).1.listeners
        = mapDelete clientWithListener.listeners "r1"
    ∧ dispatch 5
        (checkIdle 0 { clientWithListener with
          listeners := mapDelete clientWithListener.listeners "r1" }).1 termMsg
        = ((checkIdle 0 { clientWithListener with
            listeners := mapDelete clientWithListener.listeners "r1" }).1,
           []) :=
  dispatch_terminal_once 0 5 clientWithListener "r1" ⟨7, 0⟩ termMsg (by decide)
    rfl rfl rfl

/-- C5 counterexample. The claim says a frame whose text is valid JSON but not
an object (e.g. the bare number `5`) is silently discarded with no broadcast
callback invoked. On a client with one broadcast subscriber the code instead
coerces the value to an empty record and dispatches it as a broadcast frame
with the fallback event kind, invoking the subscriber. -/
theorem onMessage_nonobject_counterexample :
    (onMessage 100 true "message" (some (JVal.jnum 5)) clientWithBroadcast).2
      = [DispatchEvent.invokeBroadcast 7 [("event", JVal.jstr "message")]]
    ∧ (onMessage 100 true "message" (some (JVal.jnum 5))
        clientWithBroadcast).2 ≠ [] := by
  refine ⟨rfl, ?_⟩
  intro h
  rw [show (onMessage 100 true "message" (some (JVal.jnum 5))
      clientWithBroadcast).2
    = [DispatchEvent.invokeBroadcast 7 [("event", JVal.jstr "message")]]
    from rfl] at h
  exact List.cons_ne_nil _ _ h

/-- C5 amended. A frame whose text fails to parse is silently discarded: only
`lastFrameAt` is stamped, no callback runs, no registry state changes, and no
error is raised. A frame whose text parses to a non-object value, however, is
coerced to an empty record and dispatched as a broadcast frame under the
fallback event kind: broadcast callbacks are invoked (in order) when any are
registered, while the listener registry and broadcast set are still left
unchanged. -/
theorem onMessage_discard_amended (now : Int) (ok : Bool) (evType : String)
    (s : ClientState) (hepi : 0 ≤ s.expectedPingInterval) :
    onMessage now ok evType none s = ({ s with lastMessageAt := now }, [])
    ∧ ∀ p : JVal, isObjType p = false →
        (onMessage now ok evType (some p) s).1.listeners = s.listeners
        ∧ (onMessage now ok evType (some p) s).1.globalListeners
            = s.globalListeners
        ∧ (onMessage now ok evType (some p) s).2
            = s.globalListeners.map (fun cb =>
                DispatchEvent.invokeBroadcast cb
                  [("event", JVal.jstr (jsOrString evType "message"))]) := by
  constructor
  · simp only [onMessage]
    rw [checkHeartbeat_now now ok _ rfl (by simpa using hepi)]
  · intro p hp
    simp [onMessage, hp, evtNameOf, getField, setField, dispatch]
    split <;>
      exact ⟨(checkHeartbeat_registry now ok _).1,
        (checkHeartbeat_registry now ok _).2, rfl⟩

/-- C5 witness: a malformed frame on a client with a broadcast subscriber is
discarded outright — only the frame timestamp moves. -/
theorem onMessage_discard_amended_witness :
    onMessage 100 true "message" none clientWithBroadcast
      = ({ clientWithBroadcast with lastMessageAt := 100 }, []) :=
  (onMessage_discard_amended 100 true "message" clientWithBroadcast
    (by decide)).1

/-- C9 counterexample. The claim says the computed delay never exceeds
`maxMs × (1 + jitter)` for every attempt and random draw. With the
configuration `{baseMs: 100, maxMs: 100, factor: 2, jitter: 0.336}`, at
attempt 0 and random draw `335/336 ∈ [0,1)`, the pre-rounding delay is
`133.5`, and the source's final `Math.round` yields `134`, which exceeds the
claimed bound `100 × 1.336 = 133.6`. -/
theorem backoffDelay_bound_counterexample :
    (0 ≤ (335 / 336 : ℚ) ∧ (335 / 336 : ℚ) < 1)
    ∧ backoffDelay ⟨100, 100, 2, 336 / 1000⟩ 0 (335 / 336) = 134
    ∧ ((backoffDelay ⟨100, 100, 2, 336 / 1000⟩ 0 (335 / 336) : ℚ)
        > (100 : ℚ) * (1 + 336 / 1000)) := by
  norm_num [backoffDelay, backoffExp, jsRound]

/-- C9 amended. For any fixed random draw `r ∈ [0,1)` and a configuration
with `baseMs ≥ 0`, `factor ≥ 1`, `jitter ≥ 0`, `maxMs ≥ 0`, the delay is
non-decreasing in the attempt number (in particular up to the point where the
exponential term reaches `maxMs`, and constant beyond it), and never exceeds
`maxMs × (1 + jitter) + 1/2`: the pre-rounding delay is bounded by
`maxMs × (1 + jitter)`, and the final `Math.round` can push the result at
most half a millisecond above that bound (it cannot when the bound is an
integer). -/
theorem backoffDelay_amended (b : BackoffCfg) (r : ℚ)
    (hbase : 0 ≤ b.baseMs) (hfac : 1 ≤ b.factor) (hjit : 0 ≤ b.jitter)
    (hmax : 0 ≤ b.maxMs) (hr0 : 0 ≤ r) (hr1 : r < 1) :
    (∀ a a2 : ℕ, a ≤ a2 → backoffDelay b a r ≤ backoffDelay b a2 r)
    ∧ ∀ a : ℕ, (backoffDelay b a r : ℚ) ≤ b.maxMs * (1 + b.jitter) + 1 / 2 := by
  have hjr : 0 ≤ r * b.jitter := mul_nonneg hr0 hjit
  constructor
  · intro a a2 haa
    have hexp : backoffExp b a ≤ backoffExp b a2 := by
      unfold backoffExp
      exact min_le_min le_rfl
        (mul_le_mul_of_nonneg_left (pow_le_pow_right₀ hfac haa) hbase)
    have hmul : backoffExp b a * (r * b.jitter)
        ≤ backoffExp b a2 * (r * b.jitter) :=
      mul_le_mul_of_nonneg_right hexp hjr
    unfold backoffDelay jsRound
    apply Int.floor_le_floor
    linarith
  · intro a
    have hexple : backoffExp b a ≤ b.maxMs := min_le_left _ _
    have hexp0 : 0 ≤ backoffExp b a :=
      le_min hmax (mul_nonneg hbase (pow_nonneg (zero_le_one.trans hfac) a))
    have hrj : r * b.jitter ≤ b.jitter := by
      calc r * b.jitter ≤ 1 * b.jitter :=
            mul_le_mul_of_nonneg_right hr1.le hjit
        _ = b.jitter := one_mul _
    have h1 : backoffExp b a * (r * b.jitter) ≤ b.maxMs * b.jitter := by
      calc backoffExp b a * (r * b.jitter) ≤ backoffExp b a * b.jitter :=
            mul_le_mul_of_nonneg_left hrj hexp0
        _ ≤ b.maxMs * b.jitter := mul_le_mul_of_nonneg_right hexple hjit
    have hq : backoffExp b a + backoffExp b a * (r * b.jitter)
        ≤ b.maxMs * (1 + b.jitter) := by
      have hring : b.maxMs * (1 + b.jitter) = b.maxMs + b.maxMs * b.jitter := by
        ring
      linarith
    have hfl : ((⌊backoffExp b a + backoffExp b a * (r * b.jitter) + 1 / 2⌋ : ℤ) : ℚ)
        ≤ backoffExp b a + backoffExp b a * (r * b.jitter) + 1 / 2 :=
      Int.floor_le _
    unfold backoffDelay jsRound
    linarith

/-- C9 witness: with the source's default backoff configuration and the draw
`r = 1/2`, the delay is non-decreasing from attempt 0 to attempt 3 and the
attempt-3 delay respects the `maxMs × (1 + jitter) + 1/2` bound. -/
theorem backoffDelay_amended_witness :
    backoffDelay defaultBackoff 0 (1 / 2) ≤ backoffDelay defaultBackoff 3 (1 / 2)
    ∧ (backoffDelay defaultBackoff 3 (1 / 2) : ℚ)
        ≤ (15000 : ℚ) * (1 + 3 / 10) + 1 / 2 :=
  ⟨(backoffDelay_amended defaultBackoff (1 / 2) (by norm_num [defaultBackoff])
      (by norm_num [defaultBackoff]) (by norm_num [defaultBackoff])
      (by norm_num [defaultBackoff]) (by norm_num) (by norm_num)).1 0 3
      (by norm_num),
   (backoffDelay_amended defaultBackoff (1 / 2) (by norm_num [defaultBackoff])
      (by norm_num [defaultBackoff]) (by norm_num [defaultBackoff])
      (by norm_num [defaultBackoff]) (by norm_num) (by norm_num)).2 3⟩

end Vsse
